import Mathlib

/-!
Verification of the user-management REST API (`src/server.js`).

The server is a single Express application exposing CRUD routes over a
collection of user records persisted as a JSON array in a flat file.
We shallowly embed the data model and the four route handlers:

* JSON values sent by clients are primitives (`null`, booleans, numbers,
  strings); records and request bodies are ordered association lists of
  string keys to values, mirroring JavaScript objects with unique keys.
* JavaScript truthiness (`!name`, `age || null`) is modelled by `truthy`.
* The object spread `{...existing, ...body, updatedAt: t}` used by the
  update handler is modelled by folding single-key assignment (`Obj.set`)
  over the body (`Obj.merge`) followed by a final assignment of
  `updatedAt`, which is exactly the sequence of assignments the spread
  performs on objects with unique keys.
* The store helpers `readUsers`/`writeUsers` abstract the file system as
  a `FileState` (absent, unreadable/corrupt, or holding a parsed array)
  and a `WriteOutcome` describing whether the write call fails.
* Each handler is a pure function from the parsed file contents and the
  request data to a result recording the HTTP status, the response
  envelope fields, and the collection written back (`none` when the
  handler returns before calling the write helper).

Time is request-scoped: every handler receives the ISO-timestamp string
the clock produces during that request, and the id generator receives
the numeric timestamp and the random suffix that `Date.now()` and
`Math.random().toString(36).substr(2, 5)` produce.
-/

namespace RestApi

/-- A primitive JSON value as sent in request bodies and stored in user
records: `null`, a boolean, a number, or a string. -/
inductive Value
  | null
  | bool (b : Bool)
  | num (n : Int)
  | str (s : String)
  deriving DecidableEq

/-- JavaScript truthiness of a value: `null`, `false`, `0` and `""` are
falsy, everything else is truthy. -/
def truthy : Value → Bool
  | Value.null => false
  | Value.bool b => b
  | Value.num n => n != 0
  | Value.str s => s != ""

/-- Truthiness of a possibly-absent object field: an absent field reads
as `undefined`, which is falsy. -/
def truthyO : Option Value → Bool
  | none => false
  | some v => truthy v

/-- A JavaScript object: an ordered association list from keys to
values.  Objects built by the server have pairwise-distinct keys. -/
abbrev Obj := List (String × Value)

namespace Obj

/-- Property access `o[k]`: the value at the first occurrence of key
`k`, or `none` for `undefined`. -/
def get (o : Obj) (k : String) : Option Value :=
  (o.find? (fun kv => kv.1 == k)).map (fun kv => kv.2)

/-- Property assignment `o[k] = v`: overwrite the value in place when
the key is present, otherwise append the key at the end — JavaScript
object-spread assignment order. -/
def set : Obj → String → Value → Obj
  | [], k, v => [(k, v)]
  | (k0, v0) :: rest, k, v =>
      if k0 = k then (k0, v) :: rest else (k0, v0) :: set rest k v

/-- The object spread `{...a, ...b}`: assign each field of `b` over `a`
in order. -/
def merge (a b : Obj) : Obj :=
  b.foldl (fun acc kv => set acc kv.1 kv.2) a

/-- The keys of an object in order. -/
def keys (o : Obj) : List String := o.map Prod.fst

end Obj

/-- JavaScript `v || d` for a possibly-absent `v`: the value when it is
present and truthy, otherwise the default. -/
def jsOr (v : Option Value) (d : Value) : Value :=
  match v with
  | some w => if truthy w then w else d
  | none => d

/-- `generateId` from the source: `Date.now().toString()` concatenated
with a short random suffix (`Math.random().toString(36).substr(2, 5)`).
The numeric timestamp and the suffix are inputs of the embedding. -/
def generateId (t : Nat) (suffix : String) : String :=
  Nat.repr t ++ suffix

/-- Outcome of a mutating route handler (create, update, delete): HTTP
status, the `success` flag and `message` of the response envelope, the
record in the response `data` field, and the collection passed to the
write helper (`none` when the handler returned before writing). -/
structure ApiResult where
  status : Nat
  success : Bool
  message : String
  data : Option Obj
  written : Option (List Obj)
  deriving DecidableEq

/-- Outcome of the list route (`GET /users`): status, `success`,
`count` and `data`. -/
structure ListResult where
  status : Nat
  success : Bool
  count : Nat
  data : List Obj
  deriving DecidableEq

/-- Handler of `GET /users`: respond 200 with the whole collection and
its length. -/
def listUsers (users : List Obj) : ListResult :=
  { status := 200, success := true, count := users.length, data := users }

/-- The record object literal built by the create handler, in source
field order; `name` and `email` are the destructured body fields,
`age` and `country` go through `||` defaulting, and both timestamps
are the creation time. -/
def mkUser (body : Obj) (newId now : String) : Obj :=
  [ ("_id", Value.str newId),
    ("name", (body.get "name").getD Value.null),
    ("email", (body.get "email").getD Value.null),
    ("age", jsOr (body.get "age") Value.null),
    ("country", jsOr (body.get "country") (Value.str "Unknown")),
    ("createdAt", Value.str now),
    ("updatedAt", Value.str now) ]

/-- Handler of `POST /users`: require truthy `name` and `email`, reject
a body whose `email` strictly equals an existing record's `email`, else
build the record, append it and write. -/
def createUser (users : List Obj) (body : Obj) (newId now : String) : ApiResult :=
  if !truthyO (body.get "name") || !truthyO (body.get "email") then
    { status := 400, success := false,
      message := "Name and email are required fields",
      data := none, written := none }
  else if users.any (fun u => decide (u.get "email" = body.get "email")) then
    { status := 400, success := false,
      message := "Email already exists",
      data := none, written := none }
  else
    let newUser := mkUser body newId now
    { status := 201, success := true,
      message := "User created successfully",
      data := some newUser, written := some (users ++ [newUser]) }

/-- The object literal `{...u, ...body, updatedAt: now}` the update
handler stores: every body field assigned over the record, then
`updatedAt` assigned last. -/
def updatedRecord (u body : Obj) (now : String) : Obj :=
  (Obj.merge u body).set "updatedAt" (Value.str now)

/-- `findIndex(u => u._id === userId)` fused with the update: locate the
first record whose `_id` strictly equals the path parameter and replace
it by `{...record, ...body, updatedAt: now}`; `none` when no record
matches. -/
def updateLoop (userId : String) (body : Obj) (now : String) :
    List Obj → Option (Obj × List Obj)
  | [] => none
  | u :: rest =>
      if u.get "_id" = some (Value.str userId) then
        some (updatedRecord u body now, updatedRecord u body now :: rest)
      else
        (updateLoop userId body now rest).map (fun p => (p.1, u :: p.2))

/-- Handler of `PUT /users/:id`: 404 when no record has the given
`_id`, otherwise merge the body over the record, refresh `updatedAt`,
write, and respond 200 with the updated record. -/
def updateUser (users : List Obj) (userId : String) (body : Obj) (now : String) :
    ApiResult :=
  match updateLoop userId body now users with
  | none =>
      { status := 404, success := false, message := "User not found",
        data := none, written := none }
  | some (u2, users2) =>
      { status := 200, success := true, message := "User updated successfully",
        data := some u2, written := some users2 }

/-- `findIndex(u => u._id === userId)` fused with `splice(index, 1)`:
remove the first record whose `_id` strictly equals the path parameter,
returning it and the remaining list; `none` when no record matches. -/
def deleteLoop (userId : String) : List Obj → Option (Obj × List Obj)
  | [] => none
  | u :: rest =>
      if u.get "_id" = some (Value.str userId) then
        some (u, rest)
      else
        (deleteLoop userId rest).map (fun p => (p.1, u :: p.2))

/-- Handler of `DELETE /users/:id`: 404 when no record has the given
`_id`, otherwise remove it, write, and respond 200 with the removed
record. -/
def deleteUser (users : List Obj) (userId : String) : ApiResult :=
  match deleteLoop userId users with
  | none =>
      { status := 404, success := false, message := "User not found",
        data := none, written := none }
  | some (u, users2) =>
      { status := 200, success := true, message := "User deleted successfully",
        data := some u, written := some users2 }

/-- The backing file as the store helpers see it: missing, unreadable
or unparsable, or holding a parsed array of records. -/
inductive FileState
  | absent
  | corrupt
  | content (users : List Obj)
  deriving DecidableEq

/-- `readUsers` from the source: read and parse the backing file,
catching every error and returning the empty array instead. -/
def readUsers : FileState → List Obj
  | FileState.content us => us
  | FileState.absent => []
  | FileState.corrupt => []

/-- Disposition of the file-system write call: it either succeeds or
raises an error with a message. -/
inductive WriteOutcome
  | ok
  | ioError (msg : String)
  deriving DecidableEq

/-- `writeUsers` from the source: serialize the full collection and
overwrite the backing file, with no handling of write errors — the
error propagates to the caller. The previous file state is ignored
entirely (full overwrite, no append). -/
def writeUsers (w : WriteOutcome) (_prev : FileState) (users : List Obj) :
    Except String FileState :=
  match w with
  | WriteOutcome.ok => Except.ok (FileState.content users)
  | WriteOutcome.ioError m => Except.error m

/-- One create request: the parsed body and the generator and clock
outputs during that request. -/
structure CreateReq where
  body : Obj
  newId : String
  now : String
  deriving DecidableEq

/-- A sequence of `POST /users` requests run against the store: each
request reads the current collection and writes back the appended one
when it succeeds. -/
def runCreates : List Obj → List CreateReq → List Obj
  | users, [] => users
  | users, r :: rest =>
      runCreates ((createUser users r.body r.newId r.now).written.getD users) rest

/-! ### Object algebra: how `get` interacts with `set` and `merge` -/

namespace Obj

theorem get_cons (k0 : String) (v0 : Value) (rest : Obj) (k : String) :
    get ((k0, v0) :: rest) k = if k0 = k then some v0 else get rest k := by
  by_cases h : k0 = k
  · have hb : (k0 == k) = true := by simpa using h
    simp [get, List.find?, hb, h]
  · have hb : (k0 == k) = false := by simpa using h
    simp [get, List.find?, hb, h]

theorem set_cons (k0 : String) (v0 : Value) (rest : Obj) (k : String) (v : Value) :
    set ((k0, v0) :: rest) k v =
      if k0 = k then (k0, v) :: rest else (k0, v0) :: set rest k v := rfl

theorem get_set_self (o : Obj) (k : String) (v : Value) :
    get (set o k v) k = some v := by
  induction o with
  | nil => simp [set, get_cons]
  | cons kv rest ih =>
      obtain ⟨k0, v0⟩ := kv
      by_cases h : k0 = k
      · rw [set_cons, if_pos h, get_cons, if_pos h]
      · rw [set_cons, if_neg h, get_cons, if_neg h, ih]

theorem get_set_ne (o : Obj) (k : String) (v : Value) (k2 : String) (h : k2 ≠ k) :
    get (set o k v) k2 = get o k2 := by
  induction o with
  | nil =>
      rw [show set [] k v = [(k, v)] from rfl, get_cons, if_neg (Ne.symm h)]
  | cons kv rest ih =>
      obtain ⟨k0, v0⟩ := kv
      by_cases h0 : k0 = k
      · subst h0
        rw [set_cons, if_pos rfl, get_cons, if_neg (Ne.symm h), get_cons,
          if_neg (Ne.symm h)]
      · rw [set_cons, if_neg h0, get_cons, get_cons, ih]

theorem get_eq_none_of_notMem (o : Obj) (k : String) (h : k ∉ keys o) :
    get o k = none := by
  induction o with
  | nil => rfl
  | cons kv rest ih =>
      obtain ⟨k0, v0⟩ := kv
      simp only [keys, List.map_cons, List.mem_cons, not_or] at h
      rw [get_cons, if_neg (fun hh => h.1 hh.symm)]
      exact ih (by simpa [keys] using h.2)

theorem merge_nil (a : Obj) : merge a [] = a := rfl

theorem merge_cons (a : Obj) (k : String) (v : Value) (rest : Obj) :
    merge a ((k, v) :: rest) = merge (set a k v) rest := rfl

theorem get_merge_of_none (b : Obj) (k : String) :
    ∀ a : Obj, get b k = none → get (merge a b) k = get a k := by
  induction b with
  | nil => intro a _; rfl
  | cons kv rest ih =>
      intro a h
      obtain ⟨k0, v0⟩ := kv
      rw [get_cons] at h
      by_cases h0 : k0 = k
      · simp [h0] at h
      · rw [if_neg h0] at h
        rw [merge_cons, ih (set a k0 v0) h, get_set_ne _ _ _ _ (Ne.symm h0)]

theorem get_merge_of_some (b : Obj) (k : String) (v : Value) :
    ∀ a : Obj, (keys b).Nodup → get b k = some v → get (merge a b) k = some v := by
  induction b with
  | nil => intro a _ h; simp [get] at h
  | cons kv rest ih =>
      intro a hb h
      obtain ⟨k0, v0⟩ := kv
      simp only [keys, List.map_cons, List.nodup_cons] at hb
      rw [get_cons] at h
      by_cases h0 : k0 = k
      · subst h0
        rw [if_pos rfl] at h
        obtain rfl : v0 = v := by injection h
        rw [merge_cons, get_merge_of_none rest k0 (set a k0 v0)
              (get_eq_none_of_notMem rest k0 (by simpa [keys] using hb.1)),
            get_set_self]
      · rw [if_neg h0] at h
        rw [merge_cons]
        exact ih (set a k0 v0) (by simpa [keys] using hb.2) h

/-- `get` on a merge: the body value when the key is in the body,
otherwise the base value (for a body with unique keys). -/
theorem get_merge (a b : Obj) (k : String) (hb : (keys b).Nodup) :
    get (merge a b) k = match get b k with
      | some v => some v
      | none => get a k := by
  cases h : get b k with
  | none => simpa using get_merge_of_none b k a h
  | some v => simpa using get_merge_of_some b k v a hb h

end Obj

/-! ### Locating records: the find-and-replace / find-and-remove loops -/

theorem updateLoop_eq_none (userId : String) (body : Obj) (now : String)
    (users : List Obj)
    (h : ∀ u ∈ users, Obj.get u "_id" ≠ some (Value.str userId)) :
    updateLoop userId body now users = none := by
  induction users with
  | nil => rfl
  | cons u rest ih =>
      rw [updateLoop, if_neg (h u (List.mem_cons_self u rest)),
        ih (fun v hv => h v (List.mem_cons_of_mem u hv))]
      rfl

theorem updateLoop_found (userId : String) (body : Obj) (now : String)
    (l1 : List Obj) (u : Obj) (l2 : List Obj)
    (h1 : ∀ v ∈ l1, Obj.get v "_id" ≠ some (Value.str userId))
    (hu : Obj.get u "_id" = some (Value.str userId)) :
    updateLoop userId body now (l1 ++ u :: l2) =
      some (updatedRecord u body now, l1 ++ (updatedRecord u body now) :: l2) := by
  induction l1 with
  | nil => simp [updateLoop, hu]
  | cons v rest ih =>
      rw [List.cons_append, updateLoop,
        if_neg (h1 v (List.mem_cons_self v rest)),
        ih (fun w hw => h1 w (List.mem_cons_of_mem v hw))]
      rfl

theorem deleteLoop_eq_none (userId : String) (users : List Obj)
    (h : ∀ u ∈ users, Obj.get u "_id" ≠ some (Value.str userId)) :
    deleteLoop userId users = none := by
  induction users with
  | nil => rfl
  | cons u rest ih =>
      rw [deleteLoop, if_neg (h u (List.mem_cons_self u rest)),
        ih (fun v hv => h v (List.mem_cons_of_mem u hv))]
      rfl

theorem deleteLoop_found (userId : String)
    (l1 : List Obj) (u : Obj) (l2 : List Obj)
    (h1 : ∀ v ∈ l1, Obj.get v "_id" ≠ some (Value.str userId))
    (hu : Obj.get u "_id" = some (Value.str userId)) :
    deleteLoop userId (l1 ++ u :: l2) = some (u, l1 ++ l2) := by
  induction l1 with
  | nil => simp [deleteLoop, hu]
  | cons v rest ih =>
      rw [List.cons_append, deleteLoop,
        if_neg (h1 v (List.mem_cons_self v rest)),
        ih (fun w hw => h1 w (List.mem_cons_of_mem v hw))]
      rfl

/-! ### Field accesses on a freshly built record -/

theorem mkUser_get_id (body : Obj) (newId now : String) :
    Obj.get (mkUser body newId now) "_id" = some (Value.str newId) := rfl

theorem mkUser_get_name (body : Obj) (newId now : String) :
    Obj.get (mkUser body newId now) "name" = some ((body.get "name").getD Value.null) := rfl

theorem mkUser_get_email (body : Obj) (newId now : String) :
    Obj.get (mkUser body newId now) "email" = some ((body.get "email").getD Value.null) := rfl

theorem mkUser_get_age (body : Obj) (newId now : String) :
    Obj.get (mkUser body newId now) "age" = some (jsOr (body.get "age") Value.null) := rfl

theorem mkUser_get_country (body : Obj) (newId now : String) :
    Obj.get (mkUser body newId now) "country" =
      some (jsOr (body.get "country") (Value.str "Unknown")) := rfl

theorem mkUser_get_createdAt (body : Obj) (newId now : String) :
    Obj.get (mkUser body newId now) "createdAt" = some (Value.str now) := rfl

theorem mkUser_get_updatedAt (body : Obj) (newId now : String) :
    Obj.get (mkUser body newId now) "updatedAt" = some (Value.str now) := rfl

/-- A field that passed the truthiness check is present, and its
defaulted read gives back exactly the stored option. -/
theorem truthyO_some_getD (o : Option Value) (h : truthyO o = true) :
    some (o.getD Value.null) = o := by
  cases o with
  | none => simp [truthyO] at h
  | some v => rfl

/-- The create handler on a body with truthy `name` and `email` and an
`email` equal to no existing record's: 201, the built record in `data`,
and the collection with the record appended passed to the write
helper. -/
theorem createUser_success
    (users : List Obj) (body : Obj) (newId now : String)
    (hn : truthyO (body.get "name") = true)
    (he : truthyO (body.get "email") = true)
    (hdup : ∀ u ∈ users, Obj.get u "email" ≠ body.get "email") :
    createUser users body newId now =
      { status := 201, success := true, message := "User created successfully",
        data := some (mkUser body newId now),
        written := some (users ++ [mkUser body newId now]) } := by
  have hbool : (!truthyO (body.get "name") || !truthyO (body.get "email")) = false := by
    simp [hn, he]
  have hany : (users.any fun u => decide (Obj.get u "email" = body.get "email")) = false := by
    rw [List.any_eq_false]
    intro u hu
    simp [hdup u hu]
  simp [createUser, hbool, hany]

/-! ### Claims -/

/-- Claim C3: create fails with 400 and message `Name and email are
required fields` when the body is missing `name` or `email`, and with
400 and message `Email already exists` when the required fields pass
validation but some existing record has a strictly equal `email`; in
both failure cases no data is returned and no write happens, so the
stored collection is unchanged. -/
theorem create_validation_failures
    (users : List Obj) (body : Obj) (newId now : String) :
    (body.get "name" = none ∨ body.get "email" = none →
      createUser users body newId now =
        { status := 400, success := false,
          message := "Name and email are required fields",
          data := none, written := none }) ∧
    (truthyO (body.get "name") = true → truthyO (body.get "email") = true →
      (∃ u ∈ users, Obj.get u "email" = body.get "email") →
      createUser users body newId now =
        { status := 400, success := false,
          message := "Email already exists",
          data := none, written := none }) := by
  constructor
  · intro h
    have hbool : (!truthyO (body.get "name") || !truthyO (body.get "email")) = true := by
      rcases h with h | h <;> simp [h, truthyO]
    simp [createUser, hbool]
  · intro hn he hdup
    have hbool : (!truthyO (body.get "name") || !truthyO (body.get "email")) = false := by
      simp [hn, he]
    have hany : (users.any fun u => decide (Obj.get u "email" = body.get "email")) = true := by
      rw [List.any_eq_true]
      obtain ⟨u, hu, hequ⟩ := hdup
      exact ⟨u, hu, by simp [hequ]⟩
    simp [createUser, hbool, hany]

/-- Witness for C3: a body without `email`, then a body whose `email`
equals a stored record's. -/
theorem create_validation_failures_witness :
    createUser [] [("name", Value.str "A")] "i1" "T1" =
      { status := 400, success := false,
        message := "Name and email are required fields",
        data := none, written := none } ∧
    createUser [[("_id", Value.str "a"), ("email", Value.str "a@x")]]
        [("name", Value.str "B"), ("email", Value.str "a@x")] "i2" "T2" =
      { status := 400, success := false,
        message := "Email already exists",
        data := none, written := none } := by
  constructor
  · exact (create_validation_failures [] [("name", Value.str "A")] "i1" "T1").1
      (Or.inr rfl)
  · exact (create_validation_failures [[("_id", Value.str "a"), ("email", Value.str "a@x")]]
      [("name", Value.str "B"), ("email", Value.str "a@x")] "i2" "T2").2
      (by decide) (by decide)
      ⟨[("_id", Value.str "a"), ("email", Value.str "a@x")], by simp, by decide⟩

/-- Claim C10: the create handler coerces the optional fields by
JavaScript truthiness, not by presence. Whenever a create succeeds and
the body's `age` is any falsy value — 0, the empty string, false or
null — the stored record's `age` is null rather than the supplied
value; whenever the body's `country` is falsy the stored `country` is
`Unknown`; and 0, the empty string, false and null are falsy. -/
theorem create_coerces_falsy_optionals
    (users : List Obj) (body : Obj) (newId now : String)
    (hok : (createUser users body newId now).status = 201) :
    (createUser users body newId now).data = some (mkUser body newId now) ∧
    (createUser users body newId now).written = some (users ++ [mkUser body newId now]) ∧
    (∀ v, body.get "age" = some v → truthy v = false →
      Obj.get (mkUser body newId now) "age" = some Value.null) ∧
    (∀ v, body.get "country" = some v → truthy v = false →
      Obj.get (mkUser body newId now) "country" = some (Value.str "Unknown")) ∧
    truthy (Value.num 0) = false ∧ truthy (Value.str "") = false ∧
    truthy (Value.bool false) = false ∧ truthy Value.null = false := by
  by_cases h1 : (!truthyO (body.get "name") || !truthyO (body.get "email")) = true
  · simp [createUser, h1] at hok
  · rw [Bool.not_eq_true] at h1
    by_cases h2 : (users.any fun u => decide (Obj.get u "email" = body.get "email")) = true
    · simp [createUser, h1, h2] at hok
    · rw [Bool.not_eq_true] at h2
      refine ⟨by simp [createUser, h1, h2], by simp [createUser, h1, h2], ?_, ?_, rfl, rfl, rfl, rfl⟩
      · intro v hv htv
        rw [mkUser_get_age, hv]
        simp [jsOr, htv]
      · intro v hv htv
        rw [mkUser_get_country, hv]
        simp [jsOr, htv]

/-- Witness for C10: a successful create supplying `age: 0` and
`country: ""` stores `age: null` and `country: "Unknown"`. -/
theorem create_coerces_falsy_optionals_witness :
    (createUser [] [("name", Value.str "A"), ("email", Value.str "a@x"),
        ("age", Value.num 0), ("country", Value.str "")] "i1" "T1").data =
      some (mkUser [("name", Value.str "A"), ("email", Value.str "a@x"),
        ("age", Value.num 0), ("country", Value.str "")] "i1" "T1") ∧
    Obj.get (mkUser [("name", Value.str "A"), ("email", Value.str "a@x"),
        ("age", Value.num 0), ("country", Value.str "")] "i1" "T1") "age" =
      some Value.null ∧
    Obj.get (mkUser [("name", Value.str "A"), ("email", Value.str "a@x"),
        ("age", Value.num 0), ("country", Value.str "")] "i1" "T1") "country" =
      some (Value.str "Unknown") := by
  have h := create_coerces_falsy_optionals []
    [("name", Value.str "A"), ("email", Value.str "a@x"),
      ("age", Value.num 0), ("country", Value.str "")] "i1" "T1" (by decide)
  exact ⟨h.1, h.2.2.1 (Value.num 0) (by decide) (by decide),
    h.2.2.2.1 (Value.str "") (by decide) (by decide)⟩

/-- Counterexample to C7 as stated: a create whose body supplies
`age: 0` and `country: ""` succeeds, yet the stored record holds
`age: null` and `country: "Unknown"` — not the supplied values, which
the claim requires since the fields were supplied, not omitted. -/
theorem create_defaults_counterexample :
    (createUser [] [("name", Value.str "A"), ("email", Value.str "a@x"),
        ("age", Value.num 0), ("country", Value.str "")] "i1" "T1").status = 201 ∧
    Obj.get [("name", Value.str "A"), ("email", Value.str "a@x"),
        ("age", Value.num 0), ("country", Value.str "")] "age" =
      some (Value.num 0) ∧
    Obj.get [("name", Value.str "A"), ("email", Value.str "a@x"),
        ("age", Value.num 0), ("country", Value.str "")] "country" =
      some (Value.str "") ∧
    (((createUser [] [("name", Value.str "A"), ("email", Value.str "a@x"),
        ("age", Value.num 0), ("country", Value.str "")] "i1" "T1").data.getD
        []).get "age" = some Value.null) ∧
    (((createUser [] [("name", Value.str "A"), ("email", Value.str "a@x"),
        ("age", Value.num 0), ("country", Value.str "")] "i1" "T1").data.getD
        []).get "country" = some (Value.str "Unknown")) ∧
    Value.num 0 ≠ Value.null ∧ Value.str "" ≠ Value.str "Unknown" := by
  decide

/-- Claim C7 (amended): for every successful create the new record is
appended at the end of the collection and the 201 response's `data` is
the appended record, with `createdAt` and `updatedAt` both set to the
creation time; `country` is the supplied value when truthy and
`Unknown` when omitted or falsy, and `age` is the supplied value when
truthy and null when absent or falsy. -/
theorem create_appends_with_defaults
    (users : List Obj) (body : Obj) (newId now : String)
    (hn : truthyO (body.get "name") = true)
    (he : truthyO (body.get "email") = true)
    (hdup : ∀ u ∈ users, Obj.get u "email" ≠ body.get "email") :
    createUser users body newId now =
      { status := 201, success := true, message := "User created successfully",
        data := some (mkUser body newId now),
        written := some (users ++ [mkUser body newId now]) } ∧
    Obj.get (mkUser body newId now) "createdAt" = some (Value.str now) ∧
    Obj.get (mkUser body newId now) "updatedAt" = some (Value.str now) ∧
    (∀ v, body.get "country" = some v → truthy v = true →
      Obj.get (mkUser body newId now) "country" = some v) ∧
    (body.get "country" = none →
      Obj.get (mkUser body newId now) "country" = some (Value.str "Unknown")) ∧
    (∀ v, body.get "age" = some v → truthy v = true →
      Obj.get (mkUser body newId now) "age" = some v) ∧
    (body.get "age" = none →
      Obj.get (mkUser body newId now) "age" = some Value.null) := by
  refine ⟨createUser_success users body newId now hn he hdup,
    mkUser_get_createdAt body newId now, mkUser_get_updatedAt body newId now,
    ?_, ?_, ?_, ?_⟩
  · intro v hv htv
    rw [mkUser_get_country, hv]
    simp [jsOr, htv]
  · intro hv
    rw [mkUser_get_country, hv]
    rfl
  · intro v hv htv
    rw [mkUser_get_age, hv]
    simp [jsOr, htv]
  · intro hv
    rw [mkUser_get_age, hv]
    rfl

/-- Witness for the amended C7: a create supplying a truthy `country`
and omitting `age`. -/
theorem create_appends_with_defaults_witness :
    createUser [] [("name", Value.str "A"), ("email", Value.str "a@x"),
        ("country", Value.str "FR")] "i1" "T1" =
      { status := 201, success := true, message := "User created successfully",
        data := some (mkUser [("name", Value.str "A"), ("email", Value.str "a@x"),
          ("country", Value.str "FR")] "i1" "T1"),
        written := some [mkUser [("name", Value.str "A"), ("email", Value.str "a@x"),
          ("country", Value.str "FR")] "i1" "T1"] } ∧
    Obj.get (mkUser [("name", Value.str "A"), ("email", Value.str "a@x"),
        ("country", Value.str "FR")] "i1" "T1") "country" =
      some (Value.str "FR") ∧
    Obj.get (mkUser [("name", Value.str "A"), ("email", Value.str "a@x"),
        ("country", Value.str "FR")] "i1" "T1") "age" = some Value.null := by
  have h := create_appends_with_defaults []
    [("name", Value.str "A"), ("email", Value.str "a@x"), ("country", Value.str "FR")]
    "i1" "T1" (by decide) (by decide) (by decide)
  exact ⟨by simpa using h.1, h.2.2.2.1 (Value.str "FR") (by decide) (by decide),
    h.2.2.2.2.2.2 (by decide)⟩

/-- The collection reached from the empty store by: create Alice,
create Bob, then update Bob with a body that sets `_id` to Alice's id —
a state the API itself reaches in which two records share an `_id`. -/
def dupIdState : List Obj :=
  (updateUser
    ((createUser
        ((createUser [] [("name", Value.str "Alice"), ("email", Value.str "a@x")]
            "id1" "T1").written.getD [])
        [("name", Value.str "Bob"), ("email", Value.str "b@x")]
        "id2" "T2").written.getD [])
    "id2" [("_id", Value.str "id1")] "T3").written.getD []

/-- Counterexample to C4 as stated: in the reachable state `dupIdState`
two records carry `_id` `id1`; deleting `id1` responds 200 and removes
one record, but a record with the removed `_id` is still listed
afterwards. -/
theorem delete_dup_id_counterexample :
    dupIdState.length = 2 ∧
    (dupIdState.any (fun u => decide (Obj.get u "_id" = some (Value.str "id1")))
      = true) ∧
    (deleteUser dupIdState "id1").status = 200 ∧
    ((deleteUser dupIdState "id1").written.getD []).length = 1 ∧
    (((deleteUser dupIdState "id1").written.getD []).any
      (fun u => decide (Obj.get u "_id" = some (Value.str "id1"))) = true) := by
  decide

/-- Claim C4 (amended): when exactly one record of the collection
carries the requested `_id`, the delete responds 200 with the removed
record, the collection shrinks by exactly one, no remaining record
carries the removed `_id`, and the remaining records are a sublist of
the original collection, keeping their relative order. When several
records share the `_id` — reachable via an update that overwrites
`_id` — only the first is removed and the `_id` can remain listed. -/
theorem delete_removes_unique_id
    (l1 : List Obj) (u : Obj) (l2 : List Obj) (userId : String)
    (h1 : ∀ v ∈ l1, Obj.get v "_id" ≠ some (Value.str userId))
    (hu : Obj.get u "_id" = some (Value.str userId))
    (h2 : ∀ v ∈ l2, Obj.get v "_id" ≠ some (Value.str userId)) :
    deleteUser (l1 ++ u :: l2) userId =
      { status := 200, success := true, message := "User deleted successfully",
        data := some u, written := some (l1 ++ l2) } ∧
    (l1 ++ l2).length + 1 = (l1 ++ u :: l2).length ∧
    (∀ v ∈ l1 ++ l2, Obj.get v "_id" ≠ some (Value.str userId)) ∧
    (l1 ++ l2).Sublist (l1 ++ u :: l2) := by
  refine ⟨?_, by simp; omega, ?_, ?_⟩
  · simp [deleteUser, deleteLoop_found userId l1 u l2 h1 hu]
  · intro v hv
    rcases List.mem_append.mp hv with hv | hv
    · exact h1 v hv
    · exact h2 v hv
  · exact List.Sublist.append_left (List.sublist_cons_self u l2) l1

/-- Witness for the amended C4: deleting the first of two records with
distinct ids. -/
theorem delete_removes_unique_id_witness :
    deleteUser [[("_id", Value.str "a"), ("name", Value.str "Alice")],
        [("_id", Value.str "b"), ("name", Value.str "Bob")]] "a" =
      { status := 200, success := true, message := "User deleted successfully",
        data := some [("_id", Value.str "a"), ("name", Value.str "Alice")],
        written := some [[("_id", Value.str "b"), ("name", Value.str "Bob")]] } ∧
    [[("_id", Value.str "b"), ("name", Value.str "Bob")]].Sublist
      [[("_id", Value.str "a"), ("name", Value.str "Alice")],
        [("_id", Value.str "b"), ("name", Value.str "Bob")]] := by
  have h := delete_removes_unique_id []
    [("_id", Value.str "a"), ("name", Value.str "Alice")]
    [[("_id", Value.str "b"), ("name", Value.str "Bob")]] "a"
    (by decide) (by decide) (by decide)
  exact ⟨by simpa using h.1, by simpa using h.2.2.2⟩

/-! ### The id generator -/

theorem toDigitsCore_length_le (b : Nat) :
    ∀ (fuel n : Nat) (ds : List Char),
      ds.length ≤ (Nat.toDigitsCore b fuel n ds).length := by
  intro fuel
  induction fuel with
  | zero => intro n ds; simp [Nat.toDigitsCore]
  | succ f ih =>
      intro n ds
      simp only [Nat.toDigitsCore]
      by_cases h : n / b = 0
      · simp [h]
      · rw [if_neg h]
        calc ds.length ≤ (Nat.digitChar (n % b) :: ds).length := by simp
          _ ≤ _ := ih (n / b) (Nat.digitChar (n % b) :: ds)

theorem toDigits_length_pos (n : Nat) : 0 < (Nat.toDigits 10 n).length := by
  rw [Nat.toDigits]
  simp only [Nat.toDigitsCore]
  by_cases h : n / 10 = 0
  · simp [h]
  · rw [if_neg h]
    calc 0 < (Nat.digitChar (n % 10) :: ([] : List Char)).length := by simp
      _ ≤ _ := toDigitsCore_length_le 10 n (n / 10) [Nat.digitChar (n % 10)]

/-- The decimal representation of the timestamp is never the empty
string. -/
theorem repr_length_pos (n : Nat) : 0 < (Nat.repr n).length := by
  unfold Nat.repr
  rw [List.length_asString]
  exact toDigits_length_pos n

theorem generateId_ne_empty (t : Nat) (s : String) : generateId t s ≠ "" := by
  intro h
  have hlen : (generateId t s).length = 0 := by rw [h]; rfl
  rw [generateId, String.length_append] at hlen
  have := repr_length_pos t
  omega

/-- At a fixed timestamp, the generated id determines the random
suffix: ids generated in the same millisecond collide exactly when the
random suffixes coincide. -/
theorem generateId_same_time_inj (t : Nat) (s1 s2 : String) :
    generateId t s1 = generateId t s2 ↔ s1 = s2 := by
  constructor
  · intro h
    have hd : (Nat.repr t).data ++ s1.data = (Nat.repr t).data ++ s2.data := by
      have h2 := congrArg String.data h
      simpa [generateId, String.data_append] using h2
    exact String.ext (List.append_cancel_left hd)
  · intro h
    rw [h]

/-- Counterexample to C2 as stated: when the generator inputs repeat —
`Date.now()` returns the same millisecond and `Math.random()` the same
suffix — the second create still responds 201 although its `_id`
equals an `_id` already present in the collection, issued by the same
generator. -/
theorem create_id_collision_counterexample :
    (createUser
      ((createUser [] [("name", Value.str "A"), ("email", Value.str "a@x")]
          (generateId 5 "abc") "T1").written.getD [])
      [("name", Value.str "B"), ("email", Value.str "b@x")]
      (generateId 5 "abc") "T2").status = 201 ∧
    (((createUser
      ((createUser [] [("name", Value.str "A"), ("email", Value.str "a@x")]
          (generateId 5 "abc") "T1").written.getD [])
      [("name", Value.str "B"), ("email", Value.str "b@x")]
      (generateId 5 "abc") "T2").data.getD []).get "_id" =
        some (Value.str (generateId 5 "abc"))) ∧
    (((createUser [] [("name", Value.str "A"), ("email", Value.str "a@x")]
        (generateId 5 "abc") "T1").written.getD []).any
      (fun u => decide (Obj.get u "_id" = some (Value.str (generateId 5 "abc"))))
      = true) := by
  decide

/-- Claim C2 (amended): every successful create responds 201 with a
record whose `_id` is present and equals the generated id, which is
never empty; the generated id differs from every previously issued one
whenever its generator inputs differ suitably — at a fixed timestamp,
ids collide exactly when the random suffixes coincide — but with
identical timestamp and suffix the generator repeats an id and the
duplicate is not detected, so uniqueness is only probabilistic. -/
theorem create_id_present_amended
    (users : List Obj) (body : Obj) (t : Nat) (s now : String)
    (hn : truthyO (body.get "name") = true)
    (he : truthyO (body.get "email") = true)
    (hdup : ∀ u ∈ users, Obj.get u "email" ≠ body.get "email") :
    (createUser users body (generateId t s) now).status = 201 ∧
    ((createUser users body (generateId t s) now).data.getD []).get "_id" =
      some (Value.str (generateId t s)) ∧
    generateId t s ≠ "" ∧
    (∀ s2, generateId t s = generateId t s2 ↔ s = s2) := by
  have h := createUser_success users body (generateId t s) now hn he hdup
  refine ⟨by rw [h], ?_, generateId_ne_empty t s, fun s2 => generateId_same_time_inj t s s2⟩
  rw [h]
  exact mkUser_get_id body (generateId t s) now

/-- Witness for the amended C2. -/
theorem create_id_present_amended_witness :
    (createUser [] [("name", Value.str "A"), ("email", Value.str "a@x")]
        (generateId 5 "abc") "T1").status = 201 ∧
    generateId 5 "abc" ≠ "" ∧
    (generateId 5 "abc" = generateId 5 "xyz" ↔ "abc" = "xyz") := by
  have h := create_id_present_amended [] [("name", Value.str "A"), ("email", Value.str "a@x")]
    5 "abc" "T1" (by decide) (by decide) (by decide)
  exact ⟨h.1, h.2.2.1, h.2.2.2 "xyz"⟩

/-- Running a batch of creates whose requests all pass validation and
carry pairwise-distinct emails, none equal to an email already stored,
appends exactly the built records in request order. -/
theorem runCreates_appends :
    ∀ (reqs : List CreateReq) (acc : List Obj),
      (∀ r ∈ reqs, truthyO (r.body.get "name") = true ∧
        truthyO (r.body.get "email") = true) →
      reqs.Pairwise (fun r1 r2 => r1.body.get "email" ≠ r2.body.get "email") →
      (∀ u ∈ acc, ∀ r ∈ reqs, Obj.get u "email" ≠ r.body.get "email") →
      runCreates acc reqs =
        acc ++ reqs.map (fun r => mkUser r.body r.newId r.now) := by
  intro reqs
  induction reqs with
  | nil => intro acc _ _ _; simp [runCreates]
  | cons r rest ih =>
      intro acc hok hpw hacc
      have hr := hok r (List.mem_cons_self r rest)
      have hsucc := createUser_success acc r.body r.newId r.now hr.1 hr.2
        (fun u hu => hacc u hu r (List.mem_cons_self r rest))
      rw [runCreates, hsucc]
      show runCreates (acc ++ [mkUser r.body r.newId r.now]) rest =
        acc ++ List.map (fun r => mkUser r.body r.newId r.now) (r :: rest)
      have hpw2 := List.pairwise_cons.mp hpw
      have hnew : ∀ u ∈ acc ++ [mkUser r.body r.newId r.now],
          ∀ r2 ∈ rest, Obj.get u "email" ≠ r2.body.get "email" := by
        intro u hu r2 hr2
        rcases List.mem_append.mp hu with hu | hu
        · exact hacc u hu r2 (List.mem_cons_of_mem r hr2)
        · have hu2 : u = mkUser r.body r.newId r.now := List.mem_singleton.mp hu
          rw [hu2, mkUser_get_email, truthyO_some_getD (r.body.get "email") hr.2]
          exact hpw2.1 r2 hr2
      rw [ih (acc ++ [mkUser r.body r.newId r.now])
        (fun r2 hr2 => hok r2 (List.mem_cons_of_mem r hr2)) hpw2.2 hnew]
      simp

/-- Claim C8: starting from the empty collection, creating N users —
every request with truthy `name` and `email` and pairwise-distinct
emails — and then listing returns 200 with `count` equal to N, `data`
of length `count`, and `data` holding exactly the N created records in
creation order. -/
theorem create_then_list_roundtrip
    (reqs : List CreateReq)
    (hok : ∀ r ∈ reqs, truthyO (r.body.get "name") = true ∧
      truthyO (r.body.get "email") = true)
    (hpw : reqs.Pairwise (fun r1 r2 => r1.body.get "email" ≠ r2.body.get "email")) :
    (listUsers (runCreates [] reqs)).status = 200 ∧
    (listUsers (runCreates [] reqs)).count = reqs.length ∧
    (listUsers (runCreates [] reqs)).data.length =
      (listUsers (runCreates [] reqs)).count ∧
    (listUsers (runCreates [] reqs)).data =
      reqs.map (fun r => mkUser r.body r.newId r.now) := by
  have h := runCreates_appends reqs [] hok hpw (by simp)
  refine ⟨rfl, ?_, ?_, ?_⟩
  · simp [listUsers, h]
  · simp [listUsers, h]
  · simp [listUsers, h]

/-- Witness for C8: two concrete creates then a list. -/
theorem create_then_list_roundtrip_witness :
    (listUsers (runCreates []
      [{ body := [("name", Value.str "A"), ("email", Value.str "a@x")],
         newId := "i1", now := "T1" },
       { body := [("name", Value.str "B"), ("email", Value.str "b@x")],
         newId := "i2", now := "T2" }])).status = 200 ∧
    (listUsers (runCreates []
      [{ body := [("name", Value.str "A"), ("email", Value.str "a@x")],
         newId := "i1", now := "T1" },
       { body := [("name", Value.str "B"), ("email", Value.str "b@x")],
         newId := "i2", now := "T2" }])).count = 2 ∧
    (listUsers (runCreates []
      [{ body := [("name", Value.str "A"), ("email", Value.str "a@x")],
         newId := "i1", now := "T1" },
       { body := [("name", Value.str "B"), ("email", Value.str "b@x")],
         newId := "i2", now := "T2" }])).data =
      [mkUser [("name", Value.str "A"), ("email", Value.str "a@x")] "i1" "T1",
       mkUser [("name", Value.str "B"), ("email", Value.str "b@x")] "i2" "T2"] := by
  have h := create_then_list_roundtrip
    [{ body := [("name", Value.str "A"), ("email", Value.str "a@x")],
       newId := "i1", now := "T1" },
     { body := [("name", Value.str "B"), ("email", Value.str "b@x")],
       newId := "i2", now := "T2" }]
    (by decide) (by decide)
  exact ⟨h.1, h.2.1, h.2.2.2⟩

/-- Claim C9: the read helper surfaces no error — it returns the empty
collection when the backing file is missing or unreadable and the
stored collection otherwise — while the write helper overwrites the
file in full regardless of its prior state (a read after a successful
write returns exactly what was written) and propagates write errors to
its caller. -/
theorem store_read_write_contract
    (prev prev2 : FileState) (users us2 : List Obj) (m : String) :
    readUsers FileState.absent = [] ∧
    readUsers FileState.corrupt = [] ∧
    readUsers (FileState.content users) = users ∧
    writeUsers WriteOutcome.ok prev users = Except.ok (FileState.content users) ∧
    writeUsers WriteOutcome.ok prev users = writeUsers WriteOutcome.ok prev2 users ∧
    (∀ fs2, writeUsers WriteOutcome.ok prev users = Except.ok fs2 →
      readUsers fs2 = users) ∧
    writeUsers (WriteOutcome.ioError m) prev us2 = Except.error m := by
  refine ⟨rfl, rfl, rfl, rfl, rfl, ?_, rfl⟩
  intro fs2 h
  have h2 : FileState.content users = fs2 := by
    injection h
  rw [← h2]
  rfl

/-- Witness for C9 at concrete states. -/
theorem store_read_write_contract_witness :
    readUsers FileState.absent = [] ∧
    readUsers FileState.corrupt = [] ∧
    writeUsers WriteOutcome.ok FileState.corrupt [[("_id", Value.str "a")]] =
      Except.ok (FileState.content [[("_id", Value.str "a")]]) ∧
    readUsers (FileState.content [[("_id", Value.str "a")]]) =
      [[("_id", Value.str "a")]] ∧
    writeUsers (WriteOutcome.ioError "disk full") FileState.absent [] =
      Except.error "disk full" := by
  have h := store_read_write_contract FileState.corrupt FileState.absent
    [[("_id", Value.str "a")]] [] "disk full"
  exact ⟨h.1, h.2.1, h.2.2.2.1,
    h.2.2.2.2.2.1 (FileState.content [[("_id", Value.str "a")]]) h.2.2.2.1,
    h.2.2.2.2.2.2⟩

/-- Claim C1: updating an existing record stores exactly the shallow
merge of the request body over the existing record with `updatedAt`
overwritten last by the current request time. For every field other
than `updatedAt`, the stored value is the body value when the body has
the field — so client-supplied `_id` or `createdAt` values do overwrite
the stored ones, there being no field whitelist — and the prior value
otherwise; the stored `updatedAt` is the server time, so a
client-supplied `updatedAt` never survives the merge. -/
theorem update_is_unrestricted_merge
    (l1 : List Obj) (u : Obj) (l2 : List Obj)
    (userId : String) (body : Obj) (now : String)
    (h1 : ∀ v ∈ l1, Obj.get v "_id" ≠ some (Value.str userId))
    (hu : Obj.get u "_id" = some (Value.str userId))
    (hb : (Obj.keys body).Nodup) :
    (updateUser (l1 ++ u :: l2) userId body now).status = 200 ∧
    (updateUser (l1 ++ u :: l2) userId body now).data =
      some (updatedRecord u body now) ∧
    (updateUser (l1 ++ u :: l2) userId body now).written =
      some (l1 ++ (updatedRecord u body now) :: l2) ∧
    (∀ k, k ≠ "updatedAt" →
      Obj.get (updatedRecord u body now) k =
        match Obj.get body k with
        | some v => some v
        | none => Obj.get u k) ∧
    Obj.get (updatedRecord u body now) "updatedAt" = some (Value.str now) := by
  have hloop := updateLoop_found userId body now l1 u l2 h1 hu
  refine ⟨?_, ?_, ?_, ?_, ?_⟩
  · simp [updateUser, hloop]
  · simp [updateUser, hloop]
  · simp [updateUser, hloop]
  · intro k hk
    rw [updatedRecord, Obj.get_set_ne _ _ _ _ hk, Obj.get_merge u body k hb]
  · exact Obj.get_set_self _ _ _

/-- Witness for C1: a concrete update whose body overwrites `_id` and
`createdAt` and carries a client `updatedAt` that does not survive. -/
theorem update_is_unrestricted_merge_witness :
    (updateUser [[("_id", Value.str "a"), ("createdAt", Value.str "T0"),
        ("updatedAt", Value.str "T0")]] "a"
        [("_id", Value.str "b"), ("createdAt", Value.str "T9"),
        ("updatedAt", Value.str "T9")] "T1").status = 200 ∧
    Obj.get (updatedRecord
        [("_id", Value.str "a"), ("createdAt", Value.str "T0"),
          ("updatedAt", Value.str "T0")]
        [("_id", Value.str "b"), ("createdAt", Value.str "T9"),
          ("updatedAt", Value.str "T9")] "T1") "_id" = some (Value.str "b") ∧
    Obj.get (updatedRecord
        [("_id", Value.str "a"), ("createdAt", Value.str "T0"),
          ("updatedAt", Value.str "T0")]
        [("_id", Value.str "b"), ("createdAt", Value.str "T9"),
          ("updatedAt", Value.str "T9")] "T1") "createdAt" = some (Value.str "T9") ∧
    Obj.get (updatedRecord
        [("_id", Value.str "a"), ("createdAt", Value.str "T0"),
          ("updatedAt", Value.str "T0")]
        [("_id", Value.str "b"), ("createdAt", Value.str "T9"),
          ("updatedAt", Value.str "T9")] "T1") "updatedAt" = some (Value.str "T1") := by
  have h := update_is_unrestricted_merge []
    [("_id", Value.str "a"), ("createdAt", Value.str "T0"), ("updatedAt", Value.str "T0")]
    [] "a"
    [("_id", Value.str "b"), ("createdAt", Value.str "T9"), ("updatedAt", Value.str "T9")]
    "T1" (by simp) (by decide) (by decide)
  refine ⟨h.1, ?_, ?_, h.2.2.2.2⟩
  · rw [h.2.2.2.1 "_id" (by decide)]
    decide
  · rw [h.2.2.2.1 "createdAt" (by decide)]
    decide

/-- Claim C5: updating an existing record with body `{name: X}` leaves
its `email`, `country` and `createdAt` unchanged, sets `name` to `X`,
sets `updatedAt` to the request time — not earlier than the stored
`updatedAt` when the server clock does not run backwards — and leaves
every other record of the collection unchanged. -/
theorem update_name_frame
    (l1 : List Obj) (u : Obj) (l2 : List Obj)
    (userId x now t0 : String)
    (h1 : ∀ v ∈ l1, Obj.get v "_id" ≠ some (Value.str userId))
    (hu : Obj.get u "_id" = some (Value.str userId))
    (ht : Obj.get u "updatedAt" = some (Value.str t0))
    (hle : t0 ≤ now) :
    (updateUser (l1 ++ u :: l2) userId [("name", Value.str x)] now).written =
      some (l1 ++ (updatedRecord u [("name", Value.str x)] now) :: l2) ∧
    (updateUser (l1 ++ u :: l2) userId [("name", Value.str x)] now).data =
      some (updatedRecord u [("name", Value.str x)] now) ∧
    Obj.get (updatedRecord u [("name", Value.str x)] now) "name" =
      some (Value.str x) ∧
    Obj.get (updatedRecord u [("name", Value.str x)] now) "email" =
      Obj.get u "email" ∧
    Obj.get (updatedRecord u [("name", Value.str x)] now) "country" =
      Obj.get u "country" ∧
    Obj.get (updatedRecord u [("name", Value.str x)] now) "createdAt" =
      Obj.get u "createdAt" ∧
    Obj.get (updatedRecord u [("name", Value.str x)] now) "updatedAt" =
      some (Value.str now) ∧
    t0 ≤ now := by
  have hloop := updateLoop_found userId [("name", Value.str x)] now l1 u l2 h1 hu
  have hnodup : (Obj.keys [("name", Value.str x)]).Nodup := by simp [Obj.keys]
  refine ⟨?_, ?_, ?_, ?_, ?_, ?_, ?_, hle⟩
  · simp [updateUser, hloop]
  · simp [updateUser, hloop]
  · rw [updatedRecord, Obj.get_set_ne _ _ _ _ (by decide),
      Obj.get_merge u _ _ hnodup]
    rfl
  · rw [updatedRecord, Obj.get_set_ne _ _ _ _ (by decide),
      Obj.get_merge u _ _ hnodup]
    rfl
  · rw [updatedRecord, Obj.get_set_ne _ _ _ _ (by decide),
      Obj.get_merge u _ _ hnodup]
    rfl
  · rw [updatedRecord, Obj.get_set_ne _ _ _ _ (by decide),
      Obj.get_merge u _ _ hnodup]
    rfl
  · exact Obj.get_set_self _ _ _

/-- Witness for C5: a concrete single-field rename of a stored record. -/
theorem update_name_frame_witness :
    (updateUser [[("_id", Value.str "a"), ("name", Value.str "Old"),
        ("email", Value.str "a@x"), ("country", Value.str "FR"),
        ("createdAt", Value.str "T0"), ("updatedAt", Value.str "T1")]] "a"
        [("name", Value.str "X")] "T1").written =
      some [updatedRecord
        [("_id", Value.str "a"), ("name", Value.str "Old"),
          ("email", Value.str "a@x"), ("country", Value.str "FR"),
          ("createdAt", Value.str "T0"), ("updatedAt", Value.str "T1")]
        [("name", Value.str "X")] "T1"] ∧
    Obj.get (updatedRecord
        [("_id", Value.str "a"), ("name", Value.str "Old"),
          ("email", Value.str "a@x"), ("country", Value.str "FR"),
          ("createdAt", Value.str "T0"), ("updatedAt", Value.str "T1")]
        [("name", Value.str "X")] "T1") "name" = some (Value.str "X") ∧
    Obj.get (updatedRecord
        [("_id", Value.str "a"), ("name", Value.str "Old"),
          ("email", Value.str "a@x"), ("country", Value.str "FR"),
          ("createdAt", Value.str "T0"), ("updatedAt", Value.str "T1")]
        [("name", Value.str "X")] "T1") "email" = some (Value.str "a@x") ∧
    Obj.get (updatedRecord
        [("_id", Value.str "a"), ("name", Value.str "Old"),
          ("email", Value.str "a@x"), ("country", Value.str "FR"),
          ("createdAt", Value.str "T0"), ("updatedAt", Value.str "T1")]
        [("name", Value.str "X")] "T1") "updatedAt" = some (Value.str "T1") := by
  have h := update_name_frame []
    [("_id", Value.str "a"), ("name", Value.str "Old"),
      ("email", Value.str "a@x"), ("country", Value.str "FR"),
      ("createdAt", Value.str "T0"), ("updatedAt", Value.str "T1")]
    [] "a" "X" "T1" "T1" (by simp) (by decide) (by decide) (le_refl "T1")
  refine ⟨by simpa using h.1, h.2.2.1, ?_, h.2.2.2.2.2.2.1⟩
  rw [h.2.2.2.1]
  decide

/-- Claim C6: when no record carries the requested `_id`, both the
update and the delete handler respond 404 with message `User not
found`, return no data, and perform no write, leaving the stored
collection unchanged. -/
theorem missing_id_yields_404
    (users : List Obj) (userId : String) (body : Obj) (now : String)
    (h : ∀ u ∈ users, Obj.get u "_id" ≠ some (Value.str userId)) :
    updateUser users userId body now =
      { status := 404, success := false, message := "User not found",
        data := none, written := none } ∧
    deleteUser users userId =
      { status := 404, success := false, message := "User not found",
        data := none, written := none } := by
  constructor
  · simp [updateUser, updateLoop_eq_none userId body now users h]
  · simp [deleteUser, deleteLoop_eq_none userId users h]

/-- Witness for C6: updating and deleting an id absent from a concrete
one-record collection. -/
theorem missing_id_yields_404_witness :
    updateUser [[("_id", Value.str "a")]] "z" [("name", Value.str "N")] "T1" =
      { status := 404, success := false, message := "User not found",
        data := none, written := none } ∧
    deleteUser [[("_id", Value.str "a")]] "z" =
      { status := 404, success := false, message := "User not found",
        data := none, written := none } :=
  missing_id_yields_404 [[("_id", Value.str "a")]] "z"
    [("name", Value.str "N")] "T1" (by decide)

end RestApi
